import Mathlib

/-!
Shallow embedding of the `locked-ft` repository: the price-gated
asset-lock vault factory (`factory/src/lib.rs`), the vault token contract
(`token/src/lib.rs`, `token/src/price_receiver.rs`) and the base locked
fungible-token contract (`src/lib.rs`).

Machine integers (`u128`, `u8`, `u64`) are modelled as `Nat` with explicit
bounds checks where the source performs checked arithmetic; `env::panic` /
failed `assert!` is modelled as `Except.error` (on the NEAR runtime a panic
aborts the whole function call and reverts every state write it made, which
is modelled by the `run*` wrappers that return the original state on error).
-/

namespace LockedFt

/-- `u128::MAX`. -/
def U128_MAX : Nat := 2 ^ 128 - 1

/-- `const MAX_U128_DECIMALS: u8 = 38` (token/src/price_receiver.rs line 8). -/
def MAX_U128_DECIMALS : Nat := 38

/-- `const UNLOCKING_DURATION: Duration = 24 * 60 * 60 * 10u64.pow(9)`
(token/src/price_receiver.rs line 9): one day in nanoseconds. -/
def UNLOCKING_DURATION : Nat := 24 * 60 * 60 * 10 ^ 9

/-- `struct Price { multiplier: Balance, decimals: u8 }`
(token/src/price_receiver.rs lines 32-38). `multiplier` is a `u128`,
`decimals` a `u8`; representable values satisfy `multiplier ≤ U128_MAX`
and `decimals ≤ 255`. -/
structure Price where
  multiplier : Nat
  decimals : Nat
deriving DecidableEq, Repr

/-- Rust `Ord::cmp` on unsigned integers (`self.multiplier.cmp(&om)`). -/
def natCmp (a b : Nat) : Ordering :=
  if a < b then .lt else if a = b then .eq else .gt

/-- Rust `u128::checked_mul` by `10u128.pow diff`:
`other.multiplier.checked_mul(10u128.pow(decimals_diff as u32))`. -/
def checkedMulPow10 (m diff : Nat) : Option Nat :=
  if m * 10 ^ diff ≤ U128_MAX then some (m * 10 ^ diff) else none

/-- Body of `Price::partial_cmp` (token/src/price_receiver.rs lines 47-66)
for the case `self.decimals ≥ other.decimals`: compute
`decimals_diff = self.decimals - other.decimals`; if it exceeds
`MAX_U128_DECIMALS` return `Less`; otherwise scale the other multiplier up
by `10^decimals_diff`, returning `Less` on overflow and the integer
comparison otherwise. -/
def Price.cmpGe (a b : Price) : Option Ordering :=
  if a.decimals - b.decimals > MAX_U128_DECIMALS then
    some .lt
  else
    match checkedMulPow10 b.multiplier (a.decimals - b.decimals) with
    | some om => some (natCmp a.multiplier om)
    | none => some .lt

/-- `Price::partial_cmp` (token/src/price_receiver.rs lines 47-66): when
`self.decimals < other.decimals` the comparison is delegated to
`other.partial_cmp(self)` with the result reversed (`Ordering.swap`); the
recursive call then takes the `cmpGe` path. -/
def Price.cmpOpt (a b : Price) : Option Ordering :=
  if a.decimals < b.decimals then
    (Price.cmpGe b a).map Ordering.swap
  else
    Price.cmpGe a b

/-- Rust `price >= self.minimum_unlock_price` via `PartialOrd`:
true exactly when `partial_cmp` yields `Greater` or `Equal`. -/
def Price.geB (a b : Price) : Bool :=
  match Price.cmpOpt a b with
  | some .gt => true
  | some .eq => true
  | _ => false

/-- `enum Status` of the vault token contract (token/src/lib.rs lines
43-50): `Locked`, `Unlocking { initiated_timestamp }`, `Unlocked`. -/
inductive Status where
  | Locked
  | Unlocking (initiated_timestamp : Nat)
  | Unlocked
deriving DecidableEq, Repr

/-- `FungibleTokenMetadata` (near-contract-standards): the fields the
factory reads and writes. `reference_hash` is modelled by its byte length. -/
structure FTMetadata where
  spec : String
  name : String
  symbol : String
  icon : Option String
  reference : Option String
  reference_hash_len : Option Nat
  decimals : Nat
deriving DecidableEq, Repr

/-- State of the vault token contract `Contract` (token/src/lib.rs lines
75-88). The fungible-token ledger `ft` is modelled by its account map
(`none` = unregistered holder) and total supply. -/
structure TokenContract where
  balances : String → Option Nat
  total_supply : Nat
  token_id : String
  meta : FTMetadata
  backup_trigger_account_id : Option String
  price_oracle_account_id : String
  asset_id : String
  minimum_unlock_price : Price
  locked_token_account_id : String
  factory_account_id : String
  status : Status

/-- `Contract::new` of the vault token contract (token/src/lib.rs lines
142-163): a fresh `FungibleToken` ledger and `status: Status::Locked`;
`factory_account_id` is the predecessor. -/
def tokenNew (predecessor locked_token_account_id token_id : String)
    (meta : FTMetadata) (backup_trigger_account_id : Option String)
    (price_oracle_account_id asset_id : String)
    (minimum_unlock_price : Price) : TokenContract :=
  { balances := fun _ => none
    total_supply := 0
    token_id := token_id
    meta := meta
    backup_trigger_account_id := backup_trigger_account_id
    price_oracle_account_id := price_oracle_account_id
    asset_id := asset_id
    minimum_unlock_price := minimum_unlock_price
    locked_token_account_id := locked_token_account_id
    factory_account_id := predecessor
    status := Status.Locked }

/-- `Contract::maybe_unlock` (token/src/price_receiver.rs lines 137-169).
`now` is `env::block_timestamp()`. `Locked` starts `Unlocking{now}`;
`Unlocking` becomes `Unlocked` once `initiated_timestamp +
UNLOCKING_DURATION > now` no longer holds; `Unlocked` panics. -/
def maybeUnlock (now : Nat) (c : TokenContract) : Except String TokenContract :=
  match c.status with
  | Status.Locked =>
      Except.ok { c with status := Status.Unlocking now }
  | Status.Unlocking initiated_timestamp =>
      if initiated_timestamp + UNLOCKING_DURATION > now then
        Except.ok c
      else
        Except.ok { c with status := Status.Unlocked }
  | Status.Unlocked => Except.error "Already unlocked"

/-- `Contract::maybe_lock` (token/src/price_receiver.rs lines 171-184):
`Locked` panics with "Still locked"; `Unlocking` returns to `Locked`;
`Unlocked` panics with "Already unlocked". -/
def maybeLock (c : TokenContract) : Except String TokenContract :=
  match c.status with
  | Status.Locked => Except.error "Still locked"
  | Status.Unlocking _ => Except.ok { c with status := Status.Locked }
  | Status.Unlocked => Except.error "Already unlocked"

/-- NEAR transaction semantics of a call to `maybe_lock`: a panic reverts
every state write, leaving the persisted contract state unchanged. -/
def runMaybeLock (c : TokenContract) : TokenContract :=
  match maybeLock c with
  | Except.ok c2 => c2
  | Except.error _ => c

/-- `AssetOptionalPrice` (token/src/price_receiver.rs lines 11-16). -/
structure AssetOptionalPrice where
  asset_id : String
  price : Option Price

/-- `PriceData` (token/src/price_receiver.rs lines 18-26). -/
structure PriceData where
  timestamp : Nat
  recency_duration_sec : Nat
  prices : List AssetOptionalPrice

/-- The `for` loop of `oracle_on_call` (token/src/price_receiver.rs lines
119-132): the first entry whose `asset_id` matches the contract's decides
the action and returns; if no entry matches, the loop falls through and the
method returns with no state change. -/
def oracleLoop (now : Nat) (c : TokenContract) :
    List AssetOptionalPrice → Except String TokenContract
  | [] => Except.ok c
  | e :: rest =>
      if e.asset_id = c.asset_id then
        match e.price with
        | some p =>
            if Price.geB p c.minimum_unlock_price then maybeUnlock now c
            else maybeLock c
        | none => maybeLock c
      else oracleLoop now c rest

/-- `oracle_on_call` (token/src/price_receiver.rs lines 114-133):
asserts the predecessor is the configured price oracle, then runs the
price loop. `now` is `env::block_timestamp()`. -/
def oracleOnCall (predecessor : String) (now : Nat) (data : PriceData)
    (c : TokenContract) : Except String TokenContract :=
  if predecessor = c.price_oracle_account_id then
    oracleLoop now c data.prices
  else
    Except.error "predecessor is not the price oracle"

/-- First price entry for a given asset id, if any: `some e.price` for the
first matching entry `e`, `none` when the payload has no entry for it. -/
def findAsset : List AssetOptionalPrice → String → Option (Option Price)
  | [], _ => none
  | e :: rest, aid => if e.asset_id = aid then some e.price else findAsset rest aid

/-- `FungibleToken::internal_deposit` (near-contract-standards): panics if
the account is not registered, then adds `amount` with `u128` overflow
checks on the account balance and on the total supply. -/
def internalDeposit (c : TokenContract) (account_id : String) (amount : Nat) :
    Except String TokenContract :=
  match c.balances account_id with
  | none => Except.error "The account is not registered"
  | some balance =>
      if balance + amount ≤ U128_MAX then
        if c.total_supply + amount ≤ U128_MAX then
          Except.ok { c with
            balances := fun a => if a = account_id then some (balance + amount)
                                 else c.balances a
            total_supply := c.total_supply + amount }
        else Except.error "Total supply overflow"
      else Except.error "Balance overflow"

/-- `ft_on_transfer` of the vault token contract (token/src/lib.rs lines
103-116): asserts the predecessor is the configured locked token account
and the status is `Locked`, deposits the full amount to the sender, and
returns `U128(0)` as the unused amount. -/
def ftOnTransfer (predecessor sender_id : String) (amount : Nat)
    (c : TokenContract) : Except String (TokenContract × Nat) :=
  if predecessor = c.locked_token_account_id then
    if c.status = Status.Locked then
      match internalDeposit c sender_id amount with
      | Except.ok c2 => Except.ok (c2, 0)
      | Except.error e => Except.error e
    else Except.error "status is not Locked"
  else Except.error "predecessor is not the locked token account"

/-! ### The base locked fungible-token contract (src/lib.rs) -/

/-- `enum Status` of the base contract (src/lib.rs lines 33-38):
only `Locked` and `Unlocked`. -/
inductive BStatus where
  | Locked
  | Unlocked
deriving DecidableEq, Repr

/-- State of the base contract `Contract` (src/lib.rs lines 49-57). -/
structure BaseContract where
  balances : String → Option Nat
  total_supply : Nat
  meta : FTMetadata
  trigger_account_id : String
  locked_token_account_id : String
  status : BStatus

/-- `Contract::new` of the base contract (src/lib.rs lines 106-118):
fresh ledger, the given trigger and locked-token accounts, and
`status: Status::Unlocked`. -/
def baseNew (trigger_account_id locked_token_account_id : String)
    (meta : FTMetadata) : BaseContract :=
  { balances := fun _ => none
    total_supply := 0
    meta := meta
    trigger_account_id := trigger_account_id
    locked_token_account_id := locked_token_account_id
    status := BStatus.Unlocked }

/-- `FungibleToken::internal_deposit` for the base contract's ledger. -/
def baseInternalDeposit (c : BaseContract) (account_id : String) (amount : Nat) :
    Except String BaseContract :=
  match c.balances account_id with
  | none => Except.error "The account is not registered"
  | some balance =>
      if balance + amount ≤ U128_MAX then
        if c.total_supply + amount ≤ U128_MAX then
          Except.ok { c with
            balances := fun a => if a = account_id then some (balance + amount)
                                 else c.balances a
            total_supply := c.total_supply + amount }
        else Except.error "Total supply overflow"
      else Except.error "Balance overflow"

/-- `ft_on_transfer` of the base contract (src/lib.rs lines 72-85):
identical shape to the vault token contract's version. -/
def baseFtOnTransfer (predecessor sender_id : String) (amount : Nat)
    (c : BaseContract) : Except String (BaseContract × Nat) :=
  if predecessor = c.locked_token_account_id then
    if c.status = BStatus.Locked then
      match baseInternalDeposit c sender_id amount with
      | Except.ok c2 => Except.ok (c2, 0)
      | Except.error e => Except.error e
    else Except.error "status is not Locked"
  else Except.error "predecessor is not the locked token account"

/-- `Contract::unlock` of the base contract (src/lib.rs lines 132-138):
requires one attached yoctoNEAR, the trigger account as predecessor and
status `Locked`; sets `Unlocked`. -/
def baseUnlock (predecessor : String) (attached_deposit : Nat)
    (c : BaseContract) : Except String BaseContract :=
  if attached_deposit = 1 then
    if predecessor = c.trigger_account_id then
      if c.status = BStatus.Locked then
        Except.ok { c with status := BStatus.Unlocked }
      else Except.error "status is not Locked"
    else Except.error "predecessor is not the trigger account"
  else Except.error "requires exactly 1 yoctoNEAR"

/-! ### The token factory (factory/src/lib.rs) -/

/-- `const EXTRA_BYTES: usize = 10000` (factory/src/lib.rs line 18). -/
def EXTRA_BYTES : Nat := 10000

/-- `const BACKUP_TRIGGER_ACCOUNT_ID` (factory/src/lib.rs line 23). -/
def BACKUP_TRIGGER_ACCOUNT_ID : String := "dreamproject.near"

/-- Association-list lookup, modelling `UnorderedMap::get` / `LookupMap::get`. -/
def lookupA {α : Type} : List (String × α) → String → Option α
  | [], _ => none
  | (k, v) :: rest, key => if k = key then some v else lookupA rest key

/-- Association-list insert-or-replace, modelling `UnorderedMap::insert` /
`LookupMap::insert` (which overwrite an existing key). -/
def insertA {α : Type} : List (String × α) → String → α → List (String × α)
  | [], key, v => [(key, v)]
  | (k, w) :: rest, key, v =>
      if k = key then (k, v) :: rest else (k, w) :: insertA rest key v

/-- `struct WhitelistedToken` (factory/src/lib.rs lines 67-73). -/
structure WhitelistedToken where
  asset_id : String
  ticker : Option String
  metadata : FTMetadata
deriving DecidableEq, Repr

/-- `struct TokenArgsInput` (factory/src/lib.rs lines 77-81). -/
structure TokenArgsInput where
  token_id : String
  target_price : Nat
  price_oracle_account_id : Option String
deriving DecidableEq, Repr

/-- `struct TokenArgs` (factory/src/lib.rs lines 93-101). -/
structure TokenArgs where
  locked_token_account_id : String
  token_id : String
  meta : FTMetadata
  backup_trigger_account_id : Option String
  price_oracle_account_id : String
  asset_id : String
  minimum_unlock_price : Price
deriving DecidableEq, Repr

/-- Persisted state of `TokenFactory` (factory/src/lib.rs lines 57-63).
The three keyed stores are modelled as association lists. -/
structure FactoryState where
  tokens : List (String × TokenArgs)
  storage_deposits : List (String × Nat)
  storage_balance_cost : Nat
  whitelisted_tokens : List (String × WhitelistedToken)
  whitelisted_price_oracles : List String
deriving DecidableEq, Repr

/-- Host environment of a factory call: the NEAR `env::*` values the
factory reads. `is_valid_account_id`, the wasm code size, the Borsh
serialization length and the storage prices are host- or build-determined
and are therefore parameters of the model. -/
structure Env where
  predecessor_account_id : String
  current_account_id : String
  attached_deposit : Nat
  is_valid_account_id : String → Bool
  ft_wasm_code_len : Nat
  serialized_args_len : TokenArgs → Nat
  storage_price_per_byte : Nat
  storage_usage_delta : Nat

/-- The deployment sequence `create_token` issues on success
(factory/src/lib.rs lines 434-438): create account, fund, install the
vault wasm, call `new` with the serialized args. -/
structure Deploy where
  account_id : String
  transfer : Nat
  args : TokenArgs
deriving DecidableEq, Repr

/-- Rust `format!("{:04}", amount)`: decimal digits, left-padded with `'0'`
to at least four characters. -/
def fmt04 (n : Nat) : String :=
  let s := Nat.repr n
  String.mk (List.replicate (4 - s.length) '0') ++ s

/-- One conditional `pop` pass of `remove_trailing_zeros`, run `fuel`
times on the string's characters:
`if string.ends_with('0') && string.len() != 1 { string.pop(); }`. -/
def stripZeroLoop : Nat → List Char → List Char
  | 0, l => l
  | fuel + 1, l =>
      if l.getLast? = some '0' ∧ l.length ≠ 1 then stripZeroLoop fuel l.dropLast
      else stripZeroLoop fuel l

/-- `remove_trailing_zeros` (factory/src/lib.rs lines 498-507): format the
amount 4-digit zero-padded, then run the conditional pop four times. -/
def removeTrailingZeros (amount : Nat) : String :=
  String.mk (stripZeroLoop 4 (fmt04 amount).data)

/-- Rust `char::to_ascii_lowercase`. -/
def asciiLowerChar (c : Char) : Char :=
  if 'A' ≤ c ∧ c ≤ 'Z' then Char.ofNat (c.toNat + 32) else c

/-- Rust `str::to_ascii_lowercase`. -/
def asciiLower (s : String) : String :=
  String.mk (s.data.map asciiLowerChar)

/-- `TokenFactory::format_title` (factory/src/lib.rs lines 441-443):
drop every whitespace character. -/
def formatTitle (s : String) : String :=
  String.mk (s.data.filter (fun c => ¬ c.isWhitespace))

/-- `FungibleTokenMetadata::assert_valid` (near-contract-standards):
the spec string must be `"ft-1.0.0"`, `reference` and `reference_hash`
must be both present or both absent, and a present hash must be 32 bytes. -/
def metadataValid (m : FTMetadata) : Bool :=
  m.spec = "ft-1.0.0" ∧
  m.reference.isSome = m.reference_hash_len.isSome ∧
  (∀ n, m.reference_hash_len = some n → n = 32)

/-- `TokenFactory::storage_deposit` (factory/src/lib.rs lines 225-235):
credit the attached deposit to the predecessor's storage budget; a first
deposit must cover `storage_balance_cost`, which is retained. -/
def storageDeposit (env : Env) (s : FactoryState) : Except String FactoryState :=
  let account_id := env.predecessor_account_id
  let deposit := env.attached_deposit
  match lookupA s.storage_deposits account_id with
  | some previous_balance =>
      Except.ok { s with
        storage_deposits :=
          insertA s.storage_deposits account_id (previous_balance + deposit) }
  | none =>
      if deposit ≥ s.storage_balance_cost then
        Except.ok { s with
          storage_deposits :=
            insertA s.storage_deposits account_id (deposit - s.storage_balance_cost) }
      else Except.error "Deposit is too low"

/-- `TokenFactory::get_min_attached_balance` (factory/src/lib.rs lines
237-239): `(code_len + EXTRA_BYTES + 2 * args_len) * STORAGE_PRICE_PER_BYTE`. -/
def getMinAttachedBalance (env : Env) (args : TokenArgs) : Nat :=
  (env.ft_wasm_code_len + EXTRA_BYTES + env.serialized_args_len args * 2) *
    env.storage_price_per_byte

/-- `TokenFactory::get_token_name` (factory/src/lib.rs lines 287-303):
look up the whitelisted token, build
`"{title}-{price/10000}-{price%10000 zero-padded to 4}"`, lower-case it,
suffix the factory account and validate the account id. -/
def getTokenName (env : Env) (s : FactoryState) (token_args : TokenArgsInput) :
    Except String String :=
  match lookupA s.whitelisted_tokens token_args.token_id with
  | none => Except.error "Token wasn't whitelisted"
  | some whitelisted_token =>
      let token_name := formatTitle whitelisted_token.metadata.symbol
      let target_price_short := token_args.target_price / 10000
      let target_price_remainder := token_args.target_price % 10000
      let token_id := asciiLower
        (token_name ++ "-" ++ Nat.repr target_price_short ++ "-" ++
          fmt04 target_price_remainder)
      let token_account_id := token_id ++ "." ++ env.current_account_id
      if env.is_valid_account_id token_account_id then
        Except.ok token_account_id
      else Except.error "Token Account ID is invalid"

/-- `TokenFactory::create_token` (factory/src/lib.rs lines 338-439),
step by step in source order: optional `storage_deposit`, whitelist
lookups, metadata and price validation, derived metadata and identifier,
account-id validation, budget check and deduction, insert-if-absent into
the token registry, and the deployment promise. Every failed `assert!` /
`expect` is an `Except.error`. -/
def createToken (env : Env) (s : FactoryState) (token_args : TokenArgsInput) :
    Except String (FactoryState × Deploy) :=
  match (if env.attached_deposit > 0 then storageDeposit env s else Except.ok s) with
  | Except.error e => Except.error e
  | Except.ok s1 =>
    match lookupA s1.whitelisted_tokens token_args.token_id with
    | none => Except.error "Token wasn't whitelisted"
    | some whitelisted_token =>
      match token_args.price_oracle_account_id with
      | none => Except.error "Price Oracle Contract is missing"
      | some oracle_id =>
        if oracle_id ∈ s1.whitelisted_price_oracles then
          let token_name := formatTitle whitelisted_token.metadata.symbol
          let ticker := (whitelisted_token.ticker).getD token_name
          let token_decimals := whitelisted_token.metadata.decimals
          if token_decimals > 0 ∧ ticker ≠ "" ∧ token_name ≠ "" then
            if token_args.target_price > 0 then
              let minimum_unlock_price : Price :=
                { multiplier := token_args.target_price
                  decimals := token_decimals + 4 }
              let target_price_short := token_args.target_price / 10000
              let target_price_remainder := token_args.target_price % 10000
              let remainder_str := removeTrailingZeros target_price_remainder
              let price := if target_price_remainder > 0 then
                  Nat.repr target_price_short ++ "." ++ remainder_str
                else Nat.repr target_price_short
              let metadata := { whitelisted_token.metadata with
                name := ticker ++ " at $" ++ price
                symbol := ticker ++ "@" ++ price }
              if metadataValid metadata then
                let token_id := asciiLower
                  (token_name ++ "-at-" ++ Nat.repr target_price_short ++ "-"
                    ++ remainder_str)
                let token_account_id := token_id ++ "." ++ env.current_account_id
                if env.is_valid_account_id token_account_id then
                  let args : TokenArgs :=
                    { locked_token_account_id := token_args.token_id
                      token_id := token_id
                      meta := metadata
                      backup_trigger_account_id := some BACKUP_TRIGGER_ACCOUNT_ID
                      price_oracle_account_id := oracle_id
                      asset_id := whitelisted_token.asset_id
                      minimum_unlock_price := minimum_unlock_price }
                  let account_id := env.predecessor_account_id
                  let required_balance := getMinAttachedBalance env args
                  let user_balance := (lookupA s1.storage_deposits account_id).getD 0
                  if user_balance ≥ required_balance then
                    let s2 := { s1 with
                      storage_deposits :=
                        insertA s1.storage_deposits account_id
                          (user_balance - required_balance) }
                    match lookupA s2.tokens token_id with
                    | some _ => Except.error "Token ID is already taken"
                    | none =>
                      let s3 := { s2 with tokens := insertA s2.tokens token_id args }
                      Except.ok (s3,
                        { account_id := token_account_id
                          transfer := required_balance -
                            env.storage_usage_delta * env.storage_price_per_byte
                          args := args })
                  else Except.error "Not enough required balance"
                else Except.error "Token Account ID is invalid"
              else Except.error "metadata is invalid"
            else Except.error "Illegal target price"
          else Except.error "Missing token metadata"
        else Except.error "Price Oracle wasn't whitelisted"

/-- NEAR transaction semantics of a `create_token` call: a panic anywhere
in the method reverts every state write of the call, so a failed call
leaves the persisted factory state exactly as it was and issues no
deployment. -/
def runCreateToken (env : Env) (s : FactoryState) (token_args : TokenArgsInput) :
    FactoryState × Option Deploy :=
  match createToken env s token_args with
  | Except.ok (s2, d) => (s2, some d)
  | Except.error _ => (s, none)

/-! ### Decidable equality for `Except`, used to evaluate results. -/

instance exceptDecEq {e a : Type} [DecidableEq e] [DecidableEq a] :
    DecidableEq (Except e a) := fun x y =>
  match x, y with
  | Except.ok v, Except.ok w =>
      if h : v = w then isTrue (by rw [h]) else isFalse (by simp [h])
  | Except.error v, Except.error w =>
      if h : v = w then isTrue (by rw [h]) else isFalse (by simp [h])
  | Except.ok _, Except.error _ => isFalse (by simp)
  | Except.error _, Except.ok _ => isFalse (by simp)

/-! ### Concrete fixtures used by witnesses and counterexamples. -/

/-- A well-formed fungible-token metadata record (spec `"ft-1.0.0"`,
symbol `TEST`, 8 decimals). -/
def meta0 : FTMetadata :=
  { spec := "ft-1.0.0", name := "Test Token", symbol := "TEST", icon := none,
    reference := none, reference_hash_len := none, decimals := 8 }

/-- A vault token contract freshly initialized by the factory. -/
def cLocked : TokenContract :=
  tokenNew "factory" "lock.near" "token.near" meta0 (some "dreamproject.near")
    "oracle" "near" { multiplier := 10, decimals := 0 }

/-- The same vault while unlocking (cooldown started at timestamp 0). -/
def cUnlocking : TokenContract :=
  { cLocked with status := Status.Unlocking 0 }

/-- The same vault with one registered holder `alice` holding 10. -/
def cDeposit : TokenContract :=
  { cLocked with balances := fun a => if a = "alice" then some 10 else none }

/-! ### Theorems -/

/-- C8: the fractional price-remainder renderer maps 1000 to "1", 1200 to
"12", 1230 to "123", 1234 to "1234", 1 to "0001", 10 to "001", 100 to
"01", and 0 to "0". -/
theorem c8_remove_trailing_zeros_table :
    removeTrailingZeros 1000 = "1" ∧ removeTrailingZeros 1200 = "12" ∧
    removeTrailingZeros 1230 = "123" ∧ removeTrailingZeros 1234 = "1234" ∧
    removeTrailingZeros 1 = "0001" ∧ removeTrailingZeros 10 = "001" ∧
    removeTrailingZeros 100 = "01" ∧ removeTrailingZeros 0 = "0" := by
  decide

/-- C7: for every pair of `Price` values whose decimals differ by more
than 38, the comparator returns a result (`some`, never an error), and the
value with the larger decimals is strictly less than the other. -/
theorem c7_decimals_overflow_lt (a b : Price)
    (h : b.decimals + MAX_U128_DECIMALS < a.decimals) :
    Price.cmpOpt a b = some Ordering.lt ∧
    Price.cmpOpt b a = some Ordering.gt := by
  have hm : MAX_U128_DECIMALS = 38 := rfl
  constructor
  · rw [Price.cmpOpt, if_neg (by omega), Price.cmpGe, if_pos (by omega)]
  · rw [Price.cmpOpt, if_pos (by omega), Price.cmpGe, if_pos (by omega)]
    rfl

/-- Witness for C7 at the spec's concrete pair:
`Price(101,40) < Price(10,0)`. -/
theorem c7_witness :
    Price.cmpOpt { multiplier := 101, decimals := 40 }
        { multiplier := 10, decimals := 0 } = some Ordering.lt ∧
    Price.cmpOpt { multiplier := 10, decimals := 0 }
        { multiplier := 101, decimals := 40 } = some Ordering.gt :=
  c7_decimals_overflow_lt
    { multiplier := 101, decimals := 40 }
    { multiplier := 10, decimals := 0 } (by decide)

/-- C2 counterexample: on a vault in state `Locked`, `maybe_lock` is not a
no-op — it hard-fails with the panic "Still locked". -/
theorem c2_maybe_lock_counterexample :
    maybeLock cLocked = Except.error "Still locked" ∧
    (maybeLock cLocked).isOk = false :=
  ⟨rfl, rfl⟩

/-- C2 amended: on every vault whose status is `Locked`, `maybe_lock`
panics with "Still locked"; the transaction-level revert leaves the
persisted status `Locked` (state unchanged), but the call itself is a hard
failure, not a no-op. -/
theorem c2_maybe_lock_locked_panics (c : TokenContract)
    (h : c.status = Status.Locked) :
    maybeLock c = Except.error "Still locked" ∧ runMaybeLock c = c := by
  have h1 : maybeLock c = Except.error "Still locked" := by
    rw [maybeLock, h]
  exact ⟨h1, by rw [runMaybeLock, h1]⟩

/-- Witness for C2's amended statement on a concrete locked vault. -/
theorem c2_witness :
    maybeLock cLocked = Except.error "Still locked" ∧
    runMaybeLock cLocked = cLocked :=
  c2_maybe_lock_locked_panics cLocked rfl

/-- If the first entry for the contract's asset carries a present price,
the price loop compares it against the trigger and takes the unlock or
lock path accordingly. -/
lemma oracleLoop_of_findAsset_some_some (now : Nat) (c : TokenContract)
    (p : Price) :
    ∀ l, findAsset l c.asset_id = some (some p) →
      oracleLoop now c l =
        (if Price.geB p c.minimum_unlock_price then maybeUnlock now c
         else maybeLock c) := by
  intro l
  induction l with
  | nil => intro hfind; exact absurd hfind (by rw [findAsset]; simp)
  | cons e rest ih =>
      intro hfind
      rw [findAsset] at hfind
      rw [oracleLoop]
      by_cases he : e.asset_id = c.asset_id
      · rw [if_pos he] at hfind
        rw [if_pos he]
        have : e.price = some p := by
          cases hp : e.price with
          | none => rw [hp] at hfind; exact absurd hfind (by simp)
          | some q =>
              rw [hp] at hfind
              simp only [Option.some.injEq] at hfind
              rw [hfind]
        rw [this]
      · rw [if_neg he] at hfind
        rw [if_neg he]
        exact ih hfind

/-- C5: for a vault in state `Unlocking{t}`, every qualifying authorized
price update (reported price ≥ trigger price) delivered before the
one-day cooldown (`now - t < UNLOCKING_DURATION`) leaves the state
unchanged; once `now - t ≥ UNLOCKING_DURATION`, the qualifying update
transitions the vault to `Unlocked`; and after that transition a further
qualifying update no longer transitions (it panics "Already unlocked"),
so exactly one qualifying update performs the transition. -/
theorem c5_unlocking_cooldown (pred : String) (now : Nat) (data : PriceData)
    (c : TokenContract) (t : Nat) (p : Price)
    (hpred : pred = c.price_oracle_account_id)
    (hfind : findAsset data.prices c.asset_id = some (some p))
    (hq : Price.geB p c.minimum_unlock_price = true)
    (h : c.status = Status.Unlocking t) :
    (now - t < UNLOCKING_DURATION →
      oracleOnCall pred now data c = Except.ok c) ∧
    (UNLOCKING_DURATION ≤ now - t →
      oracleOnCall pred now data c =
        Except.ok { c with status := Status.Unlocked }) ∧
    (∀ later, oracleOnCall pred later data { c with status := Status.Unlocked } =
      Except.error "Already unlocked") := by
  have hD : UNLOCKING_DURATION = 86400000000000 := by decide
  have hcall : ∀ m, oracleOnCall pred m data c = maybeUnlock m c := by
    intro m
    rw [oracleOnCall, if_pos hpred,
      oracleLoop_of_findAsset_some_some m c p data.prices hfind, if_pos hq]
  refine ⟨fun hlt => ?_, fun hge => ?_, fun later => ?_⟩
  · rw [hcall now]
    simp only [maybeUnlock, h]
    rw [if_pos (by omega)]
  · rw [hcall now]
    simp only [maybeUnlock, h]
    rw [if_neg (by omega)]
  · rw [oracleOnCall, if_pos hpred]
    have h2 := oracleLoop_of_findAsset_some_some later
      { c with status := Status.Unlocked } p data.prices hfind
    rw [h2, if_pos hq]
    rfl

/-- The payload a price oracle pushes when the tracked asset trades at
11, above the trigger 10 of `cUnlocking`. -/
def dataAbove : PriceData :=
  { timestamp := 0, recency_duration_sec := 0,
    prices := [{ asset_id := "near",
                 price := some { multiplier := 11, decimals := 0 } }] }

/-- Witness for C5 on a concrete unlocking vault and a concrete
qualifying update: still unlocking right after initiation, unlocked once
the cooldown has elapsed, and a further update panics. -/
theorem c5_witness :
    (5 - 0 < UNLOCKING_DURATION →
      oracleOnCall "oracle" 5 dataAbove cUnlocking = Except.ok cUnlocking) ∧
    (UNLOCKING_DURATION ≤ 5 - 0 →
      oracleOnCall "oracle" 5 dataAbove cUnlocking =
        Except.ok { cUnlocking with status := Status.Unlocked }) ∧
    (∀ later, oracleOnCall "oracle" later dataAbove
        { cUnlocking with status := Status.Unlocked } =
      Except.error "Already unlocked") :=
  c5_unlocking_cooldown "oracle" 5 dataAbove cUnlocking 0
    { multiplier := 11, decimals := 0 } rfl rfl (by decide) rfl

/-- C1: the two initializers disagree. The factory-deployed vault token
contract starts `Locked` as the claim states, but the base locked-ft
contract's `new` (src/lib.rs lines 106-118) sets `status: Status::Unlocked`
— and from that initial state the contract's own entry points are
unreachable: `ft_on_transfer` and `unlock` both assert `Locked` and can
therefore never succeed on a fresh instance. -/
theorem c1_new_status_code_eval :
    (∀ pred lock tid m bk po aid p,
      (tokenNew pred lock tid m bk po aid p).status = Status.Locked) ∧
    (∀ trig lock m, (baseNew trig lock m).status = BStatus.Unlocked) ∧
    (∀ trig lock m pred sender amt,
      (baseFtOnTransfer pred sender amt (baseNew trig lock m)).isOk = false) ∧
    (∀ trig lock m pred dep,
      (baseUnlock pred dep (baseNew trig lock m)).isOk = false) := by
  refine ⟨fun _ _ _ _ _ _ _ _ => rfl, fun _ _ _ => rfl, ?_, ?_⟩
  · intro trig lock m pred sender amt
    rw [baseFtOnTransfer]
    split_ifs with h1 h2
    · exact absurd h2 (by simp [baseNew])
    · rfl
    · rfl
  · intro trig lock m pred dep
    rw [baseUnlock]
    split_ifs with h1 h2 h3
    · exact absurd h3 (by simp [baseNew])
    · rfl
    · rfl
    · rfl

/-- If the payload has no entry for the contract's asset, the price loop
falls through and returns the contract unchanged. -/
lemma oracleLoop_of_findAsset_none (now : Nat) (c : TokenContract) :
    ∀ l, findAsset l c.asset_id = none → oracleLoop now c l = Except.ok c := by
  intro l
  induction l with
  | nil => intro _; rfl
  | cons e rest ih =>
      intro hfind
      rw [findAsset] at hfind
      rw [oracleLoop]
      by_cases he : e.asset_id = c.asset_id
      · rw [if_pos he] at hfind
        exact absurd hfind (by simp)
      · rw [if_neg he] at hfind
        rw [if_neg he]
        exact ih hfind

/-- If the first entry for the contract's asset carries an absent price,
the price loop takes the `maybe_lock` path. -/
lemma oracleLoop_of_findAsset_some_none (now : Nat) (c : TokenContract) :
    ∀ l, findAsset l c.asset_id = some none → oracleLoop now c l = maybeLock c := by
  intro l
  induction l with
  | nil => intro hfind; exact absurd hfind (by rw [findAsset]; simp)
  | cons e rest ih =>
      intro hfind
      rw [findAsset] at hfind
      rw [oracleLoop]
      by_cases he : e.asset_id = c.asset_id
      · rw [if_pos he] at hfind
        rw [if_pos he]
        have : e.price = none := by
          cases hp : e.price with
          | none => rfl
          | some p => rw [hp] at hfind; exact absurd hfind (by simp)
        rw [this]
      · rw [if_neg he] at hfind
        rw [if_neg he]
        exact ih hfind

/-- C3 counterexample: an authorized price update whose payload has **no**
entry for the vault's configured asset (`near`; the payload only reports
`eth`) does not take the force-lock path: the vault stays `Unlocking 0`,
whereas the force-lock path (`maybe_lock`) would have produced `Locked`. -/
theorem c3_missing_asset_counterexample :
    (oracleOnCall "oracle" 7
        { timestamp := 0, recency_duration_sec := 0,
          prices := [{ asset_id := "eth", price := none }] }
        cUnlocking).map TokenContract.status =
      Except.ok (Status.Unlocking 0) ∧
    (maybeLock cUnlocking).map TokenContract.status = Except.ok Status.Locked :=
  ⟨rfl, rfl⟩

/-- C3 amended: for every authorized price update, if the payload's first
entry for the vault's configured asset carries an absent price, the vault
takes the force-lock path (`maybe_lock`); but if the payload contains no
entry for the asset at all, the update is a silent no-op (the state is
left unchanged and no lock path is taken). -/
theorem c3_absent_price_vs_missing_entry (pred : String) (now : Nat)
    (data : PriceData) (c : TokenContract)
    (h : pred = c.price_oracle_account_id) :
    (findAsset data.prices c.asset_id = none →
      oracleOnCall pred now data c = Except.ok c) ∧
    (findAsset data.prices c.asset_id = some none →
      oracleOnCall pred now data c = maybeLock c) := by
  rw [oracleOnCall, if_pos h]
  exact ⟨oracleLoop_of_findAsset_none now c data.prices,
    oracleLoop_of_findAsset_some_none now c data.prices⟩

/-- Witness for C3's amended statement on a concrete vault and payload. -/
theorem c3_witness :
    (findAsset [{ asset_id := "near", price := none }] cUnlocking.asset_id = none →
      oracleOnCall "oracle" 7
        { timestamp := 0, recency_duration_sec := 0,
          prices := [{ asset_id := "near", price := none }] }
        cUnlocking = Except.ok cUnlocking) ∧
    (findAsset [{ asset_id := "near", price := none }] cUnlocking.asset_id =
        some none →
      oracleOnCall "oracle" 7
        { timestamp := 0, recency_duration_sec := 0,
          prices := [{ asset_id := "near", price := none }] }
        cUnlocking = maybeLock cUnlocking) :=
  c3_absent_price_vs_missing_entry "oracle" 7
    { timestamp := 0, recency_duration_sec := 0,
      prices := [{ asset_id := "near", price := none }] }
    cUnlocking rfl

/-- A successful `internal_deposit` credits exactly the deposited amount
to the holder's registered balance. -/
lemma internalDeposit_ok (c : TokenContract) (a : String) (amt : Nat)
    (c2 : TokenContract) (h : internalDeposit c a amt = Except.ok c2) :
    ∃ b, c.balances a = some b ∧ c2.balances a = some (b + amt) := by
  rw [internalDeposit] at h
  split at h
  next hb => cases h
  next b hb =>
    split_ifs at h with hov1 hov2
    refine ⟨b, hb, ?_⟩
    cases h
    simp

/-- A successful `internal_deposit` on the base contract credits exactly
the deposited amount to the holder's registered balance. -/
lemma baseInternalDeposit_ok (c : BaseContract) (a : String) (amt : Nat)
    (c2 : BaseContract) (h : baseInternalDeposit c a amt = Except.ok c2) :
    ∃ b, c.balances a = some b ∧ c2.balances a = some (b + amt) := by
  rw [baseInternalDeposit] at h
  split at h
  next hb => cases h
  next b hb =>
    split_ifs at h with hov1 hov2
    refine ⟨b, hb, ?_⟩
    cases h
    simp

/-- C10: whenever `ft_on_transfer` succeeds — on the vault token contract
or on the base locked-ft contract — the caller was the configured locked
token account and the status was `Locked` (so the call fails unless both
hold), the full transferred amount was credited to the sender's internal
balance, and the returned unused amount is 0. -/
theorem c10_ft_on_transfer_spec (c : TokenContract) (bc : BaseContract)
    (pred sender : String) (amount : Nat) (c2 : TokenContract)
    (bc2 : BaseContract) (ret bret : Nat)
    (h1 : ftOnTransfer pred sender amount c = Except.ok (c2, ret))
    (h2 : baseFtOnTransfer pred sender amount bc = Except.ok (bc2, bret)) :
    (pred = c.locked_token_account_id ∧ c.status = Status.Locked ∧ ret = 0 ∧
      ∃ b, c.balances sender = some b ∧ c2.balances sender = some (b + amount)) ∧
    (pred = bc.locked_token_account_id ∧ bc.status = BStatus.Locked ∧ bret = 0 ∧
      ∃ b, bc.balances sender = some b ∧
        bc2.balances sender = some (b + amount)) := by
  constructor
  · rw [ftOnTransfer] at h1
    split_ifs at h1 with hp hs
    refine ⟨hp, hs, ?_⟩
    split at h1
    next cNew hdep =>
      simp only [Except.ok.injEq, Prod.mk.injEq] at h1
      obtain ⟨hc, hr⟩ := h1
      subst hc
      exact ⟨hr.symm, internalDeposit_ok c sender amount cNew hdep⟩
    next e hdep => cases h1
  · rw [baseFtOnTransfer] at h2
    split_ifs at h2 with hp hs
    refine ⟨hp, hs, ?_⟩
    split at h2
    next cNew hdep =>
      simp only [Except.ok.injEq, Prod.mk.injEq] at h2
      obtain ⟨hc, hr⟩ := h2
      subst hc
      exact ⟨hr.symm, baseInternalDeposit_ok bc sender amount cNew hdep⟩
    next e hdep => cases h2

/-- A base contract that is `Locked` with one registered holder `alice`
holding 7 (the only state from which its `ft_on_transfer` can succeed). -/
def bDeposit : BaseContract :=
  { baseNew "trigger" "lock.near" meta0 with
    status := BStatus.Locked
    balances := fun a => if a = "alice" then some 7 else none }

/-- `cDeposit` after wrapping 5 more tokens for `alice`. -/
def cDeposit2 : TokenContract :=
  { cDeposit with
    balances := fun a => if a = "alice" then some 15 else cDeposit.balances a
    total_supply := 5 }

/-- `bDeposit` after wrapping 5 more tokens for `alice`. -/
def bDeposit2 : BaseContract :=
  { bDeposit with
    balances := fun a => if a = "alice" then some 12 else bDeposit.balances a
    total_supply := 5 }

/-- Witness for C10: concrete successful deposits on both contracts. -/
theorem c10_witness :
    ("lock.near" = cDeposit.locked_token_account_id ∧
      cDeposit.status = Status.Locked ∧ (0 : Nat) = 0 ∧
      ∃ b, cDeposit.balances "alice" = some b ∧
        cDeposit2.balances "alice" = some (b + 5)) ∧
    ("lock.near" = bDeposit.locked_token_account_id ∧
      bDeposit.status = BStatus.Locked ∧ (0 : Nat) = 0 ∧
      ∃ b, bDeposit.balances "alice" = some b ∧
        bDeposit2.balances "alice" = some (b + 5)) :=
  c10_ft_on_transfer_spec cDeposit bDeposit "lock.near" "alice" 5
    cDeposit2 bDeposit2 0 0 rfl rfl

/-- C4: a `create_token` call that fails (any failed validation: asset or
oracle not whitelisted, missing or invalid metadata, zero target price,
insufficient storage budget, duplicate identifier — every failure path is
an `Except.error`) leaves the caller's storage budget and the token
registry completely unchanged: the panic aborts the transaction, so no
partial deduction and no partial record insertion survives. -/
theorem c4_create_token_fail_atomic (env : Env) (s : FactoryState)
    (ta : TokenArgsInput) (e : String)
    (h : createToken env s ta = Except.error e) :
    runCreateToken env s ta = (s, none) ∧
    (runCreateToken env s ta).1.storage_deposits = s.storage_deposits ∧
    (runCreateToken env s ta).1.tokens = s.tokens := by
  have h1 : runCreateToken env s ta = (s, none) := by rw [runCreateToken, h]
  exact ⟨h1, by rw [h1], by rw [h1]⟩

/-- The whitelisted backing token used by the concrete factory fixture. -/
def wt0 : WhitelistedToken :=
  { asset_id := "near", ticker := none, metadata := meta0 }

/-- A factory state with one whitelisted token, one whitelisted oracle,
an empty registry, and a storage budget for `alice`. -/
def s0 : FactoryState :=
  { tokens := []
    storage_deposits := [("alice", 10 ^ 30)]
    storage_balance_cost := 100
    whitelisted_tokens := [("token.near", wt0)]
    whitelisted_price_oracles := ["oracle"] }

/-- A factory call environment: `alice` calls the factory account
`factory` with no attached deposit; account-id syntax, code size and
serialization length are immaterial to the properties checked here. -/
def env0 : Env :=
  { predecessor_account_id := "alice"
    current_account_id := "factory"
    attached_deposit := 0
    is_valid_account_id := fun _ => true
    ft_wasm_code_len := 0
    serialized_args_len := fun _ => 0
    storage_price_per_byte := 1
    storage_usage_delta := 0 }

/-- A valid creation request: whitelisted token, target price 1000
(i.e. $0.1000), whitelisted oracle. -/
def ta0 : TokenArgsInput :=
  { token_id := "token.near", target_price := 1000,
    price_oracle_account_id := some "oracle" }

/-- A creation request for a token that was never whitelisted. -/
def taBad : TokenArgsInput :=
  { token_id := "other.near", target_price := 1000,
    price_oracle_account_id := some "oracle" }

/-- Witness for C4: creating with an unwhitelisted asset fails and leaves
the factory state untouched. -/
theorem c4_witness :
    createToken env0 s0 taBad = Except.error "Token wasn't whitelisted" ∧
    runCreateToken env0 s0 taBad = (s0, none) :=
  ⟨by decide, (c4_create_token_fail_atomic env0 s0 taBad
    "Token wasn't whitelisted" (by decide)).1⟩

/-- C9: on the same valid input (whitelisted token with symbol `TEST`,
target price 1000), the view `get_token_name` answers
`test-0-1000.factory` (plain hyphen separator, remainder zero-padded to 4
digits) while `create_token` registers and deploys the vault under
`test-at-0-1.factory` (literal `-at-` separator, remainder with trailing
zeros stripped). The two identifiers
differ, so the view does not predict the deployed account id. -/
theorem c9_get_token_name_divergence :
    getTokenName env0 s0 ta0 = Except.ok "test-0-1000.factory" ∧
    Except.map (fun r => r.2.account_id) (createToken env0 s0 ta0) =
      Except.ok "test-at-0-1.factory" ∧
    ("test-0-1000.factory" : String) ≠ "test-at-0-1.factory" := by
  exact ⟨by decide, by decide, by decide⟩

/-- `natCmp` is invariant under multiplying both sides by a positive
constant. -/
lemma natCmp_mul_right (a b c : Nat) (hc : 0 < c) :
    natCmp (a * c) (b * c) = natCmp a b := by
  rw [natCmp, natCmp]
  by_cases h1 : a < b
  · rw [if_pos h1, if_pos ((mul_lt_mul_right hc).mpr h1)]
  · rw [if_neg h1, if_neg (fun hlt => h1 ((mul_lt_mul_right hc).mp hlt))]
    by_cases h2 : a = b
    · rw [if_pos h2, if_pos (by rw [h2])]
    · rw [if_neg h2, if_neg (fun he => h2 (Nat.eq_of_mul_eq_mul_right hc he))]

/-- Reversing `natCmp` swaps its arguments. -/
lemma natCmp_swap (a b : Nat) : (natCmp a b).swap = natCmp b a := by
  rw [natCmp, natCmp]
  by_cases h1 : a < b
  · rw [if_pos h1, if_neg (by omega), if_neg (by omega)]
    rfl
  · by_cases h2 : a = b
    · rw [if_neg h1, if_pos h2, if_neg (by omega), if_pos (by omega)]
      rfl
    · rw [if_neg h1, if_neg h2, if_pos (by omega)]
      rfl

/-- `u128::MAX` is below `10^39`, the smallest scale factor the comparator
refuses to apply. -/
lemma u128max_lt_pow39 : U128_MAX < 10 ^ 39 := by decide

/-- On the `self.decimals ≥ other.decimals` path, for representable
operands with a positive right multiplier the comparator computes exactly
the comparison of the exact rational values `m1/10^d1` and `m2/10^d2`
(cross-multiplied): both clamp-to-`Less` branches agree with the exact
order. -/
lemma cmpGe_eq_natCmp (m1 d1 m2 d2 : Nat) (hd : d2 ≤ d1) (hm2 : 0 < m2)
    (hm1 : m1 ≤ U128_MAX) :
    Price.cmpGe { multiplier := m1, decimals := d1 }
        { multiplier := m2, decimals := d2 } =
      some (natCmp (m1 * 10 ^ d2) (m2 * 10 ^ d1)) := by
  have hpow : (0 : Nat) < 10 ^ d2 := Nat.pos_pow_of_pos d2 (by omega)
  have hsplit : m2 * 10 ^ d1 = m2 * 10 ^ (d1 - d2) * 10 ^ d2 := by
    rw [mul_assoc, ← pow_add]
    congr 2
    omega
  rw [Price.cmpGe]
  by_cases hbig : d1 - d2 > MAX_U128_DECIMALS
  · rw [if_pos hbig]
    have h39 : 10 ^ 39 ≤ 10 ^ (d1 - d2) := by
      apply Nat.pow_le_pow_right (by omega)
      have hM : MAX_U128_DECIMALS = 38 := rfl
      omega
    have hlt : m1 * 10 ^ d2 < m2 * 10 ^ d1 :=
      calc m1 * 10 ^ d2 ≤ U128_MAX * 10 ^ d2 := Nat.mul_le_mul_right _ hm1
        _ < 10 ^ 39 * 10 ^ d2 := (mul_lt_mul_right hpow).mpr u128max_lt_pow39
        _ ≤ 10 ^ (d1 - d2) * 10 ^ d2 := Nat.mul_le_mul_right _ h39
        _ ≤ m2 * 10 ^ (d1 - d2) * 10 ^ d2 := by
            apply Nat.mul_le_mul_right
            exact Nat.le_mul_of_pos_left _ hm2
        _ = m2 * 10 ^ d1 := hsplit.symm
    rw [natCmp, if_pos hlt]
  · rw [if_neg hbig, checkedMulPow10]
    by_cases hov : m2 * 10 ^ (d1 - d2) ≤ U128_MAX
    · rw [if_pos hov]
      have : natCmp (m1 * 10 ^ d2) (m2 * 10 ^ d1) =
          natCmp m1 (m2 * 10 ^ (d1 - d2)) := by
        rw [hsplit, natCmp_mul_right _ _ _ hpow]
      rw [this]
    · rw [if_neg hov]
      have hlt : m1 * 10 ^ d2 < m2 * 10 ^ d1 := by
        rw [hsplit]
        have : m1 < m2 * 10 ^ (d1 - d2) := by omega
        exact (mul_lt_mul_right hpow).mpr this
      rw [natCmp, if_pos hlt]

/-- For representable operands with positive multipliers,
`Price::partial_cmp` computes exactly the cross-multiplied comparison of
the rational values the operands denote. -/
lemma cmpOpt_eq_natCmp (m1 d1 m2 d2 : Nat) (hm1 : 0 < m1) (hm2 : 0 < m2)
    (h1 : m1 ≤ U128_MAX) (h2 : m2 ≤ U128_MAX) :
    Price.cmpOpt { multiplier := m1, decimals := d1 }
        { multiplier := m2, decimals := d2 } =
      some (natCmp (m1 * 10 ^ d2) (m2 * 10 ^ d1)) := by
  rw [Price.cmpOpt]
  by_cases hd : d1 < d2
  · rw [if_pos hd, cmpGe_eq_natCmp m2 d2 m1 d1 (by omega) hm1 h2]
    show some ((natCmp (m2 * 10 ^ d1) (m1 * 10 ^ d2)).swap) = _
    rw [natCmp_swap]
  · rw [if_neg hd, cmpGe_eq_natCmp m1 d1 m2 d2 (by omega) hm2 h1]

/-- C6 counterexample: the scaling hypothesis of the claim is satisfied —
`(1,1)` scaled by `10^38` gives `(10^38, 39)`, still representable
(`10^38 ≤ u128::MAX`, `39 ≤ 255`) — yet comparing against `(0,0)` the
result flips from `Greater` (0.1 > 0) to `Less` (the `Δdecimals > 38`
clamp fires). -/
theorem c6_scale_counterexample :
    Price.cmpOpt { multiplier := 1, decimals := 1 }
        { multiplier := 0, decimals := 0 } = some Ordering.gt ∧
    Price.cmpOpt { multiplier := 1 * 10 ^ 38, decimals := 1 + 38 }
        { multiplier := 0, decimals := 0 } = some Ordering.lt ∧
    1 * 10 ^ 38 ≤ U128_MAX ∧ 1 + 38 ≤ 255 := by
  refine ⟨by decide, ?_, by decide, by decide⟩
  rw [Price.cmpOpt, if_neg (by decide), Price.cmpGe, if_pos (by decide)]

/-- C6 amended: for representable operands with **positive** multipliers,
scaling one operand by a power of ten (multiplier times `10^k`, decimals
plus `k`), with the scaled multiplier still representable, leaves the
comparison with the other operand unchanged. (With a zero multiplier the
`Δdecimals > 38` clamp can flip the result, as the counterexample shows.) -/
theorem c6_scale_invariance_pos (m1 d1 m2 d2 k : Nat) (hm1 : 0 < m1)
    (hm2 : 0 < m2) (h1 : m1 ≤ U128_MAX) (h2 : m2 ≤ U128_MAX)
    (hs : m1 * 10 ^ k ≤ U128_MAX) (_hd1 : d1 + k ≤ 255) (_hd2 : d2 ≤ 255) :
    Price.cmpOpt { multiplier := m1 * 10 ^ k, decimals := d1 + k }
        { multiplier := m2, decimals := d2 } =
      Price.cmpOpt { multiplier := m1, decimals := d1 }
        { multiplier := m2, decimals := d2 } := by
  have hk : (0 : Nat) < 10 ^ k := Nat.pos_pow_of_pos k (by omega)
  rw [cmpOpt_eq_natCmp (m1 * 10 ^ k) (d1 + k) m2 d2
      (Nat.mul_pos hm1 hk) hm2 hs h2,
    cmpOpt_eq_natCmp m1 d1 m2 d2 hm1 hm2 h1 h2]
  congr 1
  have e1 : m1 * 10 ^ k * 10 ^ d2 = m1 * 10 ^ d2 * 10 ^ k := by ring
  have e2 : m2 * 10 ^ (d1 + k) = m2 * 10 ^ d1 * 10 ^ k := by
    rw [pow_add, mul_assoc]
  rw [e1, e2, natCmp_mul_right _ _ _ hk]

/-- Witness for C6's amended statement: `(2,0)` scaled by `10^1` compared
with `(3,0)` — the comparison is `Less` before and after scaling. -/
theorem c6_witness :
    Price.cmpOpt { multiplier := 2 * 10 ^ 1, decimals := 0 + 1 }
        { multiplier := 3, decimals := 0 } =
      Price.cmpOpt { multiplier := 2, decimals := 0 }
        { multiplier := 3, decimals := 0 } :=
  c6_scale_invariance_pos 2 0 3 0 1 (by decide) (by decide) (by decide)
    (by decide) (by decide) (by decide) (by decide)

end LockedFt
